import Mathlib

/-!
# Verification of the XplainIQ lite scoring core

Shallow embedding of the scoring logic of `XplainIQLite.py` (and its twin
`XplainIQLite_Final.py`): the pillar catalog, tier bands, `tier_for`,
`pillar_commentary`, `compute_scores`, `derive_strengths_gaps` and
`recommend_actions`.

Modelling notes:
* Python `dict` arguments (`answers`, the per-pillar detail, the playbook)
  are embedded as association lists with first-match lookup.
* Scores are IEEE doubles in the source; they are embedded as exact
  rationals.  For every rating list the source ever produces, the double
  expression `(sum/len)/5.0*100.0` with `len = 2` is exactly the rational
  value (each intermediate rounding error is below half an ulp of the
  exact result), and the overall mean of five such multiples of ten is
  exact as well, so the rational embedding is faithful.
* Python `round` is round-half-to-even; `pyRound` embeds that.
* Python `sorted(..., key=..., reverse=...)` is a stable sort; it is
  embedded with `List.mergeSort`, which is stable.
-/

namespace XplainIQLite

/-- The five pillars with their question identifiers, from `PILLARS`. -/
def PILLARS : List (String × List String) := [
  ("A. Channel Strategy & Alignment", ["A1", "A2"]),
  ("B. Partner Program Design",      ["B1", "B2"]),
  ("C. Partner Enablement & Engagement", ["C1", "C2"]),
  ("D. Sales & Operations Integration",  ["D1", "D2"]),
  ("E. Growth Readiness",            ["E1", "E2"])]

/-- The tier bands `(name, lo, hi)`, from `TIER_BANDS`. -/
def TIER_BANDS : List (String × Int × Int) := [
  ("Emerging",   0, 39),
  ("Developing", 40, 59),
  ("Established",60, 79),
  ("Optimized",  80, 100)]

/-- Python `round`: round half to even (banker's rounding). -/
def pyRound (x : ℚ) : Int :=
  let f := ⌊x⌋
  let r := x - (f : ℚ)
  if r < 1/2 then f
  else if 1/2 < r then f + 1
  else if f % 2 = 0 then f else f + 1

/-- `tier_for(score)`: round, then return the first band containing the
rounded value, falling back to the sentinel. -/
def tier_for (score : ℚ) : String :=
  let s := pyRound score
  match TIER_BANDS.find? (fun b => decide (b.2.1 ≤ s) && decide (s ≤ b.2.2)) with
  | some b => b.1
  | none => "Unknown"

/-- `pillar_commentary(pillar_name, pscore)`. -/
def pillar_commentary (pillar_name : String) (pscore : ℚ) : String :=
  if pscore ≥ 80 then
    pillar_name ++ " is strong and scalable – keep reinforcing what works."
  else if pscore ≥ 60 then
    pillar_name ++ " shows a solid foundation with room to standardize and scale."
  else if pscore ≥ 40 then
    pillar_name ++ " is emerging – formalize structure, cadence, and measurement."
  else
    pillar_name ++ " is underdeveloped – prioritize core mechanics and minimum viable structure."

/-- An answer set: `Dict[str, int]` as an association list. -/
abbrev Answers := List (String × Int)

/-- `int(answers.get(q, 0))`: the stored rating, or 0 when missing. -/
def getAnswer (answers : Answers) (q : String) : Int :=
  (answers.lookup q).getD 0

/-- The per-pillar score expression of `compute_scores`:
`0.0` when `vals` is empty or all zero, else `(sum(vals)/len(vals))/5.0*100.0`. -/
def pillarScore (vals : List Int) : ℚ :=
  if vals.isEmpty || vals.all (fun v => v == 0) then 0
  else ((vals.sum : ℚ) / (vals.length : ℚ)) / 5 * 100

/-- `compute_scores(answers)`: the list of `(pillar name, score, detail)`
triples in catalog order, and the overall mean. -/
def compute_scores (answers : Answers) :
    List (String × ℚ × List (String × Int)) × ℚ :=
  let pillar_scores := PILLARS.map (fun p =>
    let vals := p.2.map (fun q => getAnswer answers q)
    (p.1, pillarScore vals, p.2.zip vals))
  let overall := (pillar_scores.map (fun p => p.2.1)).sum / (pillar_scores.length : ℚ)
  (pillar_scores, overall)

/-- `derive_strengths_gaps(ps)`: stable-sort descending by score; strengths
are the first two names, gaps the last three names. -/
def derive_strengths_gaps (ps : List (String × ℚ × List (String × Int))) :
    List String × List String :=
  let sorted_p := ps.mergeSort (fun a b => decide (b.2.1 ≤ a.2.1))
  ((sorted_p.take 2).map (fun p => p.1),
   (sorted_p.drop (sorted_p.length - 3)).map (fun p => p.1))

/-- The fixed playbook of `recommend_actions`. -/
def playbook : List (String × String) := [
  ("A. Channel Strategy & Alignment", "Clarify the partner role by segment and set a 12-month channel thesis with 3 measurable outcomes."),
  ("B. Partner Program Design", "Publish a simple one-pager: tiers, incentives, rules of engagement, and co-marketing paths."),
  ("C. Partner Enablement & Engagement", "Stand up a 30-60-90 enablement cadence: onboarding kit, monthly enablement call, quarterly MDF campaign."),
  ("D. Sales & Operations Integration", "Separate channel pipeline tracking; define lead routing/quoting SLAs; add 'channel' to forecast reviews."),
  ("E. Growth Readiness", "Baseline partner P&L and capacity; set tooling minimums (PRM/CRM views) and resource triggers for 2–3× growth.")]

/-- `recommend_actions(ps)`: the playbook entries (or generic fallback) for
the three lowest-scoring pillars, worst first. -/
def recommend_actions (ps : List (String × ℚ × List (String × Int))) : List String :=
  let lows := (ps.mergeSort (fun a b => decide (a.2.1 ≤ b.2.1))).take 3
  lows.map (fun p => (playbook.lookup p.1).getD
    ("Prioritize foundational improvements in " ++ p.1.toLower ++ " to enable scale."))

end XplainIQLite

namespace XplainIQLite

/-! ## Helper lemmas -/

theorem mem_of_lookup_eq_some {l : List (String × Int)} {q : String} {v : Int}
    (h : l.lookup q = some v) : (q, v) ∈ l := by
  induction l with
  | nil => simp [List.lookup] at h
  | cons p t ih =>
    rcases p with ⟨k, b⟩
    rw [List.lookup] at h
    by_cases hk : q == k
    · simp [hk] at h
      subst h
      exact List.mem_cons.mpr (Or.inl (by rw [eq_of_beq hk]))
    · simp [hk] at h
      exact List.mem_cons_of_mem _ (ih h)

theorem getAnswer_bounds {answers : Answers}
    (h : ∀ p ∈ answers, 1 ≤ p.2 ∧ p.2 ≤ 5) (q : String) :
    0 ≤ getAnswer answers q ∧ getAnswer answers q ≤ 5 := by
  unfold getAnswer
  cases hl : answers.lookup q with
  | none => simp
  | some v =>
    have := h _ (mem_of_lookup_eq_some hl)
    simp only [Option.getD_some]
    omega

theorem pillarScore_in_range (vals : List Int) (h : ∀ v ∈ vals, 0 ≤ v ∧ v ≤ 5) :
    0 ≤ pillarScore vals ∧ pillarScore vals ≤ 100 := by
  unfold pillarScore
  split
  · simp
  · rename_i hcond
    have hne : vals ≠ [] := by
      intro he
      subst he
      simp at hcond
    have hlen : (0:ℚ) < (vals.length : ℚ) := by
      have := List.length_pos.mpr hne
      exact_mod_cast this
    have hsum0 : (0:ℚ) ≤ (vals.sum : ℚ) := by
      have : (0:Int) ≤ vals.sum := List.sum_nonneg (fun v hv => (h v hv).1)
      exact_mod_cast this
    have hsum5 : (vals.sum : ℚ) ≤ 5 * (vals.length : ℚ) := by
      have h1 : vals.sum ≤ vals.length • (5:Int) :=
        List.sum_le_card_nsmul vals 5 (fun v hv => (h v hv).2)
      have h2 : vals.length • (5:Int) = (vals.length : Int) * 5 := by
        simp [nsmul_eq_mul]
      rw [h2] at h1
      have h3 : ((vals.sum : Int) : ℚ) ≤ (((vals.length : Int) * 5 : Int) : ℚ) := by
        exact_mod_cast h1
      push_cast at h3 ⊢
      linarith
    have hdiv : (vals.sum : ℚ) / (vals.length : ℚ) ≤ 5 :=
      (div_le_iff₀ hlen).mpr (by linarith)
    have hdiv0 : 0 ≤ (vals.sum : ℚ) / (vals.length : ℚ) := div_nonneg hsum0 (le_of_lt hlen)
    constructor
    · positivity
    · rw [div_mul_eq_mul_div, div_le_iff₀ (by norm_num : (0:ℚ) < 5)]
      linarith

/-! ## Claims about `compute_scores` -/

/-- C1. For every answer set whose ratings all lie in [1,5], every pillar
score of `compute_scores` and the overall score lie in [0,100]. -/
theorem compute_scores_in_range (answers : Answers)
    (h : ∀ p ∈ answers, 1 ≤ p.2 ∧ p.2 ≤ 5) :
    (∀ pr ∈ (compute_scores answers).1, 0 ≤ pr.2.1 ∧ pr.2.1 ≤ 100) ∧
    0 ≤ (compute_scores answers).2 ∧ (compute_scores answers).2 ≤ 100 := by
  have hpillar : ∀ pr ∈ (compute_scores answers).1, 0 ≤ pr.2.1 ∧ pr.2.1 ≤ 100 := by
    intro pr hpr
    simp only [compute_scores, List.mem_map] at hpr
    obtain ⟨p, hp, rfl⟩ := hpr
    refine pillarScore_in_range _ ?_
    intro v hv
    simp only [List.mem_map] at hv
    obtain ⟨q, hq, rfl⟩ := hv
    exact getAnswer_bounds h q
  have hlen : (compute_scores answers).1.length = 5 := by
    simp [compute_scores, PILLARS]
  have hov : (compute_scores answers).2 =
      ((compute_scores answers).1.map (fun p => p.2.1)).sum / 5 := by
    simp [compute_scores, PILLARS]
  have hS : ∀ s ∈ (compute_scores answers).1.map (fun p => p.2.1), 0 ≤ s ∧ s ≤ 100 := by
    intro s hs
    simp only [List.mem_map] at hs
    obtain ⟨pr, hpr, rfl⟩ := hs
    exact hpillar pr hpr
  have hsum0 : (0:ℚ) ≤ ((compute_scores answers).1.map (fun p => p.2.1)).sum :=
    List.sum_nonneg (fun s hs => (hS s hs).1)
  have hsum5 : ((compute_scores answers).1.map (fun p => p.2.1)).sum ≤ 500 := by
    have h1 := List.sum_le_card_nsmul ((compute_scores answers).1.map (fun p => p.2.1)) 100
      (fun s hs => (hS s hs).2)
    rw [List.length_map, hlen] at h1
    norm_num at h1
    exact h1
  refine ⟨hpillar, ?_, ?_⟩
  · rw [hov]
    linarith
  · rw [hov]
    linarith

/-- Witness for C1 at the concrete answer set `[("A1", 3)]`. -/
theorem compute_scores_in_range_witness :
    (∀ p ∈ ([("A1", 3)] : Answers), 1 ≤ p.2 ∧ p.2 ≤ 5) ∧
    0 ≤ (compute_scores [("A1", 3)]).2 ∧ (compute_scores [("A1", 3)]).2 ≤ 100 :=
  ⟨by decide, (compute_scores_in_range [("A1", 3)] (by decide)).2⟩

end XplainIQLite

namespace XplainIQLite

/-! ## Rounding and tier classification -/

theorem pyRound_nearest (x : ℚ) : |x - (pyRound x : ℚ)| ≤ 1/2 := by
  have h0 : (0:ℚ) ≤ x - ⌊x⌋ := by
    have := Int.floor_le x
    linarith
  have h1 : x - ⌊x⌋ < 1 := by
    have := Int.lt_floor_add_one x
    linarith
  simp only [pyRound]
  split_ifs with ha hb hc
  · rw [abs_le]
    constructor <;> linarith
  · push_cast
    rw [abs_le]
    constructor <;> linarith
  · rw [abs_le]
    constructor <;> linarith
  · push_cast
    rw [abs_le]
    constructor <;> linarith

theorem pyRound_intCast (n : Int) : pyRound ((n:ℚ)) = n := by
  simp [pyRound]

theorem tier_for_eq_cases (q : ℚ) :
    tier_for q =
      if 0 ≤ pyRound q ∧ pyRound q ≤ 39 then "Emerging"
      else if 40 ≤ pyRound q ∧ pyRound q ≤ 59 then "Developing"
      else if 60 ≤ pyRound q ∧ pyRound q ≤ 79 then "Established"
      else if 80 ≤ pyRound q ∧ pyRound q ≤ 100 then "Optimized"
      else "Unknown" := by
  unfold tier_for
  set s := pyRound q with hs
  by_cases h1 : 0 ≤ s ∧ s ≤ 39
  · simp [TIER_BANDS, List.find?, h1.1, h1.2, h1]
  · by_cases h2 : 40 ≤ s ∧ s ≤ 59
    · have hb : ¬ s ≤ 39 := by omega
      simp [TIER_BANDS, List.find?, hb, h2.1, h2.2, h1, h2]
    · by_cases h3 : 60 ≤ s ∧ s ≤ 79
      · have hb : ¬ s ≤ 39 := by omega
        have hc : ¬ s ≤ 59 := by omega
        simp [TIER_BANDS, List.find?, hb, hc, h3.1, h3.2, h1, h2, h3]
      · by_cases h4 : 80 ≤ s ∧ s ≤ 100
        · have hb : ¬ s ≤ 39 := by omega
          have hc : ¬ s ≤ 59 := by omega
          have hd : ¬ s ≤ 79 := by omega
          simp [TIER_BANDS, List.find?, hb, hc, hd, h4.1, h4.2, h1, h2, h3, h4]
        · rcases (by omega : s < 0 ∨ 100 < s) with hlow | hhigh
          · have ha : ¬ (0:Int) ≤ s := by omega
            have hb : ¬ (40:Int) ≤ s := by omega
            have hc : ¬ (60:Int) ≤ s := by omega
            have hd : ¬ (80:Int) ≤ s := by omega
            simp [TIER_BANDS, List.find?, ha, hb, hc, hd, h1, h2, h3, h4]
          · have ha : ¬ s ≤ 39 := by omega
            have hb : ¬ s ≤ 59 := by omega
            have hc : ¬ s ≤ 79 := by omega
            have hd : ¬ s ≤ 100 := by omega
            simp [TIER_BANDS, List.find?, ha, hb, hc, hd, h1, h2, h3, h4]

theorem pyRound_boundaries :
    pyRound (394/10 : ℚ) = 39 ∧ pyRound (395/10 : ℚ) = 40 ∧
    pyRound (595/10 : ℚ) = 60 ∧ pyRound (795/10 : ℚ) = 80 := by
  have h1 : ⌊(394/10 : ℚ)⌋ = 39 := by norm_num [Int.floor_eq_iff]
  have h2 : ⌊(395/10 : ℚ)⌋ = 39 := by norm_num [Int.floor_eq_iff]
  have h3 : ⌊(595/10 : ℚ)⌋ = 59 := by norm_num [Int.floor_eq_iff]
  have h4 : ⌊(795/10 : ℚ)⌋ = 79 := by norm_num [Int.floor_eq_iff]
  refine ⟨?_, ?_, ?_, ?_⟩ <;> simp [pyRound, h1, h2, h3, h4] <;> norm_num

/-- C3. `tier_for` rounds its argument to a nearest integer (ties to even,
as Python `round` does: the rounded value is within 1/2 of the argument)
and returns the band containing the rounded value from the table
Emerging [0,39], Developing [40,59], Established [60,79],
Optimized [80,100], each band inclusive at both ends; at the boundaries,
`tier_for 39.4 = "Emerging"`, `tier_for 39.5 = "Developing"`,
`tier_for 59.5 = "Established"`, `tier_for 79.5 = "Optimized"`. -/
theorem tier_for_bands_and_boundaries :
    (∀ q : ℚ, |q - (pyRound q : ℚ)| ≤ 1/2) ∧
    (∀ q : ℚ, tier_for q =
      if 0 ≤ pyRound q ∧ pyRound q ≤ 39 then "Emerging"
      else if 40 ≤ pyRound q ∧ pyRound q ≤ 59 then "Developing"
      else if 60 ≤ pyRound q ∧ pyRound q ≤ 79 then "Established"
      else if 80 ≤ pyRound q ∧ pyRound q ≤ 100 then "Optimized"
      else "Unknown") ∧
    tier_for (394/10 : ℚ) = "Emerging" ∧ tier_for (395/10 : ℚ) = "Developing" ∧
    tier_for (595/10 : ℚ) = "Established" ∧ tier_for (795/10 : ℚ) = "Optimized" := by
  obtain ⟨e1, e2, e3, e4⟩ := pyRound_boundaries
  refine ⟨pyRound_nearest, tier_for_eq_cases, ?_, ?_, ?_, ?_⟩ <;>
    rw [tier_for_eq_cases] <;>
    simp [e1, e2, e3, e4]

/-- C8. `tier_for` never raises: any score whose rounded value lies in
[0,100] gets one of the four tier names (never the sentinel), and any
other score gets the sentinel "Unknown". -/
theorem tier_for_exhaustive :
    ∀ q : ℚ,
      (0 ≤ pyRound q ∧ pyRound q ≤ 100 →
        (tier_for q = "Emerging" ∨ tier_for q = "Developing" ∨
         tier_for q = "Established" ∨ tier_for q = "Optimized") ∧
        tier_for q ≠ "Unknown") ∧
      (¬(0 ≤ pyRound q ∧ pyRound q ≤ 100) → tier_for q = "Unknown") := by
  intro q
  rw [tier_for_eq_cases q]
  constructor
  · intro h
    split_ifs with h1 h2 h3 h4
    · exact ⟨Or.inl rfl, by decide⟩
    · exact ⟨Or.inr (Or.inl rfl), by decide⟩
    · exact ⟨Or.inr (Or.inr (Or.inl rfl)), by decide⟩
    · exact ⟨Or.inr (Or.inr (Or.inr rfl)), by decide⟩
    · omega
  · intro h
    split_ifs with h1 h2 h3 h4
    · omega
    · omega
    · omega
    · omega
    · rfl

/-- Witness for C8 at the concrete score 50. -/
theorem tier_for_exhaustive_witness :
    (0 ≤ pyRound (50:ℚ) ∧ pyRound (50:ℚ) ≤ 100) ∧
    (tier_for (50:ℚ) = "Emerging" ∨ tier_for (50:ℚ) = "Developing" ∨
     tier_for (50:ℚ) = "Established" ∨ tier_for (50:ℚ) = "Optimized") ∧
    tier_for (50:ℚ) ≠ "Unknown" := by
  have hp : pyRound (50:ℚ) = 50 := by
    have h50 : ((50:Int):ℚ) = (50:ℚ) := by norm_num
    rw [← h50, pyRound_intCast]
  have hb : 0 ≤ pyRound (50:ℚ) ∧ pyRound (50:ℚ) ≤ 100 := by
    rw [hp]
    exact ⟨by norm_num, by norm_num⟩
  exact ⟨hb, (tier_for_exhaustive 50).1 hb⟩

end XplainIQLite

namespace XplainIQLite

/-! ## Unanswered pillars and raw ratings -/

theorem pillarScore_all_zero {vals : List Int} (h : ∀ v ∈ vals, v = 0) :
    pillarScore vals = 0 := by
  unfold pillarScore
  split
  · rfl
  · rename_i hc
    exfalso
    apply hc
    have : vals.all (fun v => v == 0) = true :=
      List.all_eq_true.mpr (fun v hv => beq_iff_eq.mpr (h v hv))
    simp [this]

theorem zip_self_map (qids : List String) (f : String → Int) :
    qids.zip (qids.map f) = qids.map (fun q => (q, f q)) := by
  induction qids with
  | nil => rfl
  | cons q t ih =>
    rw [List.map_cons, List.zip_cons_cons, ih, List.map_cons]

/-- C4. Any pillar whose collected ratings are all 0 (every question
missing or rated 0) gets score exactly 0; the empty answer set yields all
pillar scores 0, overall 0, and tier "Emerging". -/
theorem unanswered_scores_zero :
    (∀ answers : Answers, ∀ pr ∈ (compute_scores answers).1,
      (∀ d ∈ pr.2.2, d.2 = 0) → pr.2.1 = 0) ∧
    (compute_scores []).1.map (fun p => p.2.1) = [0, 0, 0, 0, 0] ∧
    (compute_scores []).2 = 0 ∧
    tier_for (compute_scores []).2 = "Emerging" := by
  have hmain : ∀ answers : Answers, ∀ pr ∈ (compute_scores answers).1,
      (∀ d ∈ pr.2.2, d.2 = 0) → pr.2.1 = 0 := by
    intro answers pr hpr hd
    simp only [compute_scores, List.mem_map] at hpr
    obtain ⟨p, hp, rfl⟩ := hpr
    simp only
    apply pillarScore_all_zero
    intro v hv
    simp only [List.mem_map] at hv
    obtain ⟨q, hq, rfl⟩ := hv
    have hmem : (q, getAnswer answers q) ∈
        p.2.zip (p.2.map (fun q => getAnswer answers q)) := by
      rw [zip_self_map]
      exact List.mem_map.mpr ⟨q, hq, rfl⟩
    exact hd _ hmem
  have hz : (compute_scores []).2 = 0 := by
    simp [compute_scores, PILLARS, getAnswer, pillarScore]
  refine ⟨hmain, ?_, hz, ?_⟩
  · simp [compute_scores, PILLARS, getAnswer, pillarScore]
  · rw [hz]
    have hp0 : pyRound (0:ℚ) = 0 := by
      have h0 : ((0:Int):ℚ) = (0:ℚ) := by norm_num
      rw [← h0, pyRound_intCast]
    rw [tier_for_eq_cases]
    simp [hp0]

theorem compute_scores_nil_list : (compute_scores ([] : Answers)).1 =
    [("A. Channel Strategy & Alignment", (0:ℚ), [("A1", (0:Int)), ("A2", (0:Int))]),
     ("B. Partner Program Design", (0:ℚ), [("B1", (0:Int)), ("B2", (0:Int))]),
     ("C. Partner Enablement & Engagement", (0:ℚ), [("C1", (0:Int)), ("C2", (0:Int))]),
     ("D. Sales & Operations Integration", (0:ℚ), [("D1", (0:Int)), ("D2", (0:Int))]),
     ("E. Growth Readiness", (0:ℚ), [("E1", (0:Int)), ("E2", (0:Int))])] := by rfl

/-- Witness for C4: the first pillar of the empty answer set. -/
theorem unanswered_scores_zero_witness :
    ("A. Channel Strategy & Alignment", (0:ℚ), [("A1", (0:Int)), ("A2", (0:Int))]) ∈
      (compute_scores ([] : Answers)).1 ∧
    (("A. Channel Strategy & Alignment", (0:ℚ),
      [("A1", (0:Int)), ("A2", (0:Int))]) : String × ℚ × List (String × Int)).2.1 = 0 := by
  have hmem : ("A. Channel Strategy & Alignment", (0:ℚ), [("A1", (0:Int)), ("A2", (0:Int))]) ∈
      (compute_scores ([] : Answers)).1 := by
    rw [compute_scores_nil_list]
    exact List.mem_cons_self _ _
  exact ⟨hmem, unanswered_scores_zero.1 [] _ hmem (by decide)⟩

theorem compute_scores_A1six_list : (compute_scores [("A1", 6)]).1 =
    [("A. Channel Strategy & Alignment", (60:ℚ), [("A1", (6:Int)), ("A2", (0:Int))]),
     ("B. Partner Program Design", (0:ℚ), [("B1", (0:Int)), ("B2", (0:Int))]),
     ("C. Partner Enablement & Engagement", (0:ℚ), [("C1", (0:Int)), ("C2", (0:Int))]),
     ("D. Sales & Operations Integration", (0:ℚ), [("D1", (0:Int)), ("D2", (0:Int))]),
     ("E. Growth Readiness", (0:ℚ), [("E1", (0:Int)), ("E2", (0:Int))])] := by
  simp [compute_scores, PILLARS, getAnswer, pillarScore, List.lookup]
  norm_num

/-- Counterexample to C2 as stated: the out-of-range rating `A1 = 6` is
not treated as unanswered.  With `A1 = 6` the first pillar scores 60 and
records detail value 6; with `A1` missing it scores 0 and records 0. -/
theorem out_of_range_not_treated_as_unanswered :
    (compute_scores [("A1", 6)]).1.map (fun p => p.2.1) = [60, 0, 0, 0, 0] ∧
    (compute_scores []).1.map (fun p => p.2.1) = [0, 0, 0, 0, 0] ∧
    (compute_scores [("A1", 6)]).1.map (fun p => p.2.2.map (fun d => d.2)) =
      [[6, 0], [0, 0], [0, 0], [0, 0], [0, 0]] ∧
    (compute_scores []).1.map (fun p => p.2.2.map (fun d => d.2)) =
      [[0, 0], [0, 0], [0, 0], [0, 0], [0, 0]] ∧
    (60:ℚ) ≠ 0 ∧ (6:Int) ≠ 0 := by
  refine ⟨?_, ?_, ?_, ?_, by norm_num, by decide⟩ <;>
    · simp [compute_scores, PILLARS, getAnswer, pillarScore, List.lookup]
      try norm_num

/-- C2 amended. `compute_scores` rejects no input: a missing rating is
treated as 0 (unanswered), but a present integer rating — including one
outside [1,5] — is not coerced: it is recorded as-is in the per-question
detail, and the pillar mean is computed from exactly those recorded raw
values. -/
theorem compute_scores_records_raw (answers : Answers) :
    ∀ pr ∈ (compute_scores answers).1,
      (∀ d ∈ pr.2.2, d.2 = (answers.lookup d.1).getD 0) ∧
      pr.2.1 = pillarScore (pr.2.2.map (fun d => d.2)) := by
  intro pr hpr
  simp only [compute_scores, List.mem_map] at hpr
  obtain ⟨p, hp, rfl⟩ := hpr
  constructor
  · intro d hd
    rw [zip_self_map] at hd
    simp only [List.mem_map] at hd
    obtain ⟨q, hq, rfl⟩ := hd
    rfl
  · simp only
    congr 1
    rw [zip_self_map, List.map_map]
    rfl

/-- Witness for C2 (amended) at the answer set `[("A1", 6)]`. -/
theorem compute_scores_records_raw_witness :
    ("A. Channel Strategy & Alignment", (60:ℚ), [("A1", (6:Int)), ("A2", (0:Int))]) ∈
      (compute_scores [("A1", 6)]).1 ∧
    ("A1", (6:Int)) ∈ [("A1", (6:Int)), ("A2", (0:Int))] ∧
    (("A1", (6:Int)) : String × Int).2 = (([("A1", (6:Int))] : Answers).lookup "A1").getD 0 := by
  have hmem : ("A. Channel Strategy & Alignment", (60:ℚ), [("A1", (6:Int)), ("A2", (0:Int))]) ∈
      (compute_scores [("A1", 6)]).1 := by
    rw [compute_scores_A1six_list]
    exact List.mem_cons_self _ _
  exact ⟨hmem, by decide,
    (compute_scores_records_raw [("A1", 6)] _ hmem).1 ("A1", 6) (by decide)⟩

/-! ## The worked example -/

def exampleAnswers : Answers :=
  [("A1", 5), ("A2", 5), ("B1", 3), ("B2", 3), ("C1", 1),
   ("C2", 1), ("D1", 4), ("D2", 2), ("E1", 5), ("E2", 5)]

/-- C7. The answer set A1=5, A2=5, B1=3, B2=3, C1=1, C2=1, D1=4, D2=2,
E1=5, E2=5 yields pillar scores 100, 60, 20, 60, 100 in catalog order,
overall 68, and tier "Established". -/
theorem example_assessment :
    (compute_scores exampleAnswers).1.map (fun p => p.2.1) = [100, 60, 20, 60, 100] ∧
    (compute_scores exampleAnswers).2 = 68 ∧
    tier_for (compute_scores exampleAnswers).2 = "Established" := by
  have h2 : (compute_scores exampleAnswers).2 = 68 := by
    simp [compute_scores, PILLARS, getAnswer, pillarScore, exampleAnswers, List.lookup]
    norm_num
  refine ⟨?_, h2, ?_⟩
  · simp [compute_scores, PILLARS, getAnswer, pillarScore, exampleAnswers, List.lookup]
    norm_num
  · rw [h2, tier_for_eq_cases]
    have hp : pyRound (68:ℚ) = 68 := by
      have h68 : ((68:Int):ℚ) = (68:ℚ) := by norm_num
      rw [← h68, pyRound_intCast]
    simp [hp]

end XplainIQLite

namespace XplainIQLite

/-! ## Commentary bands -/

/-- C9. `pillar_commentary` is total and pure, returning exactly one of 4
fixed templates with the pillar name interpolated, selected by the bands
score ≥ 80, 60 ≤ score < 80, 40 ≤ score < 60, and score < 40. -/
theorem pillar_commentary_bands :
    ∀ (pn : String) (ps : ℚ),
      (80 ≤ ps → pillar_commentary pn ps =
        pn ++ " is strong and scalable – keep reinforcing what works.") ∧
      (60 ≤ ps ∧ ps < 80 → pillar_commentary pn ps =
        pn ++ " shows a solid foundation with room to standardize and scale.") ∧
      (40 ≤ ps ∧ ps < 60 → pillar_commentary pn ps =
        pn ++ " is emerging – formalize structure, cadence, and measurement.") ∧
      (ps < 40 → pillar_commentary pn ps =
        pn ++ " is underdeveloped – prioritize core mechanics and minimum viable structure.") := by
  intro pn ps
  unfold pillar_commentary
  refine ⟨fun h => ?_, fun h => ?_, fun h => ?_, fun h => ?_⟩
  · rw [if_pos (by linarith : ps ≥ 80)]
  · rw [if_neg (by linarith : ¬ ps ≥ 80), if_pos (by linarith : ps ≥ 60)]
  · rw [if_neg (by linarith : ¬ ps ≥ 80), if_neg (by linarith : ¬ ps ≥ 60),
      if_pos (by linarith : ps ≥ 40)]
  · rw [if_neg (by linarith : ¬ ps ≥ 80), if_neg (by linarith : ¬ ps ≥ 60),
      if_neg (by linarith : ¬ ps ≥ 40)]

/-- Witness for C9 at score 90. -/
theorem pillar_commentary_bands_witness :
    (80 ≤ (90:ℚ)) ∧
    pillar_commentary "X. Pillar" (90:ℚ) =
      "X. Pillar" ++ " is strong and scalable – keep reinforcing what works." :=
  ⟨by norm_num, (pillar_commentary_bands "X. Pillar" 90).1 (by norm_num)⟩

/-! ## Strengths, gaps and recommended actions -/

/-- C5. `derive_strengths_gaps` stable-sorts the five pillars descending by
score (ties in catalog order), takes the first 2 names as strengths and the
last 3 names of that same descending list as gaps; when the pillar names
are distinct the two lists are disjoint and together cover all 5 names. -/
theorem derive_strengths_gaps_spec (ps : List (String × ℚ × List (String × Int)))
    (h5 : ps.length = 5) (hnd : (ps.map (fun p => p.1)).Nodup) :
    (ps.mergeSort (fun a b => decide (b.2.1 ≤ a.2.1))).Perm ps ∧
    (ps.mergeSort (fun a b => decide (b.2.1 ≤ a.2.1))).Pairwise (fun a b => b.2.1 ≤ a.2.1) ∧
    (derive_strengths_gaps ps).1 =
      ((ps.mergeSort (fun a b => decide (b.2.1 ≤ a.2.1))).take 2).map (fun p => p.1) ∧
    (derive_strengths_gaps ps).2 =
      ((ps.mergeSort (fun a b => decide (b.2.1 ≤ a.2.1))).drop 2).map (fun p => p.1) ∧
    (derive_strengths_gaps ps).1.length = 2 ∧
    (derive_strengths_gaps ps).2.length = 3 ∧
    (∀ n ∈ (derive_strengths_gaps ps).1, n ∉ (derive_strengths_gaps ps).2) ∧
    ((derive_strengths_gaps ps).1 ++ (derive_strengths_gaps ps).2).Perm
      (ps.map (fun p => p.1)) := by
  have hperm : (ps.mergeSort (fun a b => decide (b.2.1 ≤ a.2.1))).Perm ps :=
    List.mergeSort_perm ps _
  have hlen : (ps.mergeSort (fun a b => decide (b.2.1 ≤ a.2.1))).length = 5 := by
    rw [List.length_mergeSort, h5]
  have hsorted : (ps.mergeSort (fun a b => decide (b.2.1 ≤ a.2.1))).Pairwise
      (fun a b => b.2.1 ≤ a.2.1) := by
    have h := @List.sorted_mergeSort _
      (fun (a b : String × ℚ × List (String × Int)) => decide (b.2.1 ≤ a.2.1))
      (fun a b c hab hbc => by
        simp only [decide_eq_true_eq] at *
        exact le_trans hbc hab)
      (fun a b => by
        simp only [Bool.or_eq_true, decide_eq_true_eq]
        exact le_total b.2.1 a.2.1)
      ps
    exact h.imp (fun hab => by simpa using hab)
  have hsg1 : (derive_strengths_gaps ps).1 =
      ((ps.mergeSort (fun a b => decide (b.2.1 ≤ a.2.1))).take 2).map (fun p => p.1) := rfl
  have hsg2 : (derive_strengths_gaps ps).2 =
      ((ps.mergeSort (fun a b => decide (b.2.1 ≤ a.2.1))).drop 2).map (fun p => p.1) := by
    show ((ps.mergeSort _).drop ((ps.mergeSort _).length - 3)).map _ = _
    rw [hlen]
  have hl1 : (derive_strengths_gaps ps).1.length = 2 := by
    rw [hsg1, List.length_map, List.length_take, hlen]
    try norm_num
  have hl2 : (derive_strengths_gaps ps).2.length = 3 := by
    rw [hsg2, List.length_map, List.length_drop, hlen]
    try norm_num
  have hndmap : ((ps.mergeSort (fun a b => decide (b.2.1 ≤ a.2.1))).map
      (fun p => p.1)).Nodup :=
    (hperm.map (fun p => p.1)).nodup_iff.mpr hnd
  have hsplit : (derive_strengths_gaps ps).1 ++ (derive_strengths_gaps ps).2 =
      (ps.mergeSort (fun a b => decide (b.2.1 ≤ a.2.1))).map (fun p => p.1) := by
    rw [hsg1, hsg2, ← List.map_append, List.take_append_drop]
  have hdisj : ∀ n ∈ (derive_strengths_gaps ps).1, n ∉ (derive_strengths_gaps ps).2 := by
    have hn := hndmap
    rw [← hsplit] at hn
    exact fun n h1 h2 => (List.disjoint_of_nodup_append hn) h1 h2
  have hcover : ((derive_strengths_gaps ps).1 ++ (derive_strengths_gaps ps).2).Perm
      (ps.map (fun p => p.1)) := by
    rw [hsplit]
    exact hperm.map _
  exact ⟨hperm, hsorted, hsg1, hsg2, hl1, hl2, hdisj, hcover⟩

/-- Witness for C5 at the pillar list of the empty answer set. -/
theorem derive_strengths_gaps_spec_witness :
    ((compute_scores ([] : Answers)).1.length = 5) ∧
    (((compute_scores ([] : Answers)).1.map (fun p => p.1)).Nodup) ∧
    (derive_strengths_gaps (compute_scores ([] : Answers)).1).1.length = 2 ∧
    (derive_strengths_gaps (compute_scores ([] : Answers)).1).2.length = 3 := by
  have h5 : (compute_scores ([] : Answers)).1.length = 5 := by
    rw [compute_scores_nil_list]
    rfl
  have hnd : ((compute_scores ([] : Answers)).1.map (fun p => p.1)).Nodup := by
    rw [compute_scores_nil_list]
    decide
  have h := derive_strengths_gaps_spec _ h5 hnd
  exact ⟨h5, hnd, h.2.2.2.2.1, h.2.2.2.2.2.1⟩

/-- C6. `recommend_actions` returns exactly 3 strings: the playbook entry
(or, for a name not in the playbook, the generated generic string naming
the pillar) for each of the 3 lowest-scoring pillars, worst first (ties in
input order, by sort stability). -/
theorem recommend_actions_spec (ps : List (String × ℚ × List (String × Int)))
    (h5 : ps.length = 5) :
    (recommend_actions ps).length = 3 ∧
    recommend_actions ps =
      ((ps.mergeSort (fun a b => decide (a.2.1 ≤ b.2.1))).take 3).map
        (fun p => (playbook.lookup p.1).getD
          ("Prioritize foundational improvements in " ++ p.1.toLower ++ " to enable scale.")) ∧
    ((ps.mergeSort (fun a b => decide (a.2.1 ≤ b.2.1))).take 3).Pairwise
      (fun a b => a.2.1 ≤ b.2.1) ∧
    (∀ a ∈ (ps.mergeSort (fun a b => decide (a.2.1 ≤ b.2.1))).take 3,
     ∀ b ∈ (ps.mergeSort (fun a b => decide (a.2.1 ≤ b.2.1))).drop 3,
       a.2.1 ≤ b.2.1) := by
  have hlen : (ps.mergeSort (fun a b => decide (a.2.1 ≤ b.2.1))).length = 5 := by
    rw [List.length_mergeSort, h5]
  have hsorted : (ps.mergeSort (fun a b => decide (a.2.1 ≤ b.2.1))).Pairwise
      (fun a b => a.2.1 ≤ b.2.1) := by
    have h := @List.sorted_mergeSort _
      (fun (a b : String × ℚ × List (String × Int)) => decide (a.2.1 ≤ b.2.1))
      (fun a b c hab hbc => by
        simp only [decide_eq_true_eq] at *
        exact le_trans hab hbc)
      (fun a b => by
        simp only [Bool.or_eq_true, decide_eq_true_eq]
        exact le_total a.2.1 b.2.1)
      ps
    exact h.imp (fun hab => by simpa using hab)
  have hsplitp := hsorted
  rw [← List.take_append_drop 3 (ps.mergeSort (fun a b => decide (a.2.1 ≤ b.2.1))),
    List.pairwise_append] at hsplitp
  have hlen3 : (recommend_actions ps).length = 3 := by
    show (((ps.mergeSort _).take 3).map _).length = 3
    rw [List.length_map, List.length_take, hlen]
    try norm_num
  exact ⟨hlen3, rfl, hsplitp.1, fun a ha b hb => hsplitp.2.2 a ha b hb⟩

/-- Witness for C6 at the pillar list of the empty answer set. -/
theorem recommend_actions_spec_witness :
    ((compute_scores ([] : Answers)).1.length = 5) ∧
    (recommend_actions (compute_scores ([] : Answers)).1).length = 3 := by
  have h5 : (compute_scores ([] : Answers)).1.length = 5 := by
    rw [compute_scores_nil_list]
    rfl
  exact ⟨h5, (recommend_actions_spec _ h5).1⟩

end XplainIQLite

/-!
## The scoring core of `XplainIQLite_Final.py`

`XplainIQLite_Final.py` defines its own copies of `PILLARS`, `TIER_BANDS`,
`tier_for`, `pillar_commentary`, `compute_scores`, `derive_strengths_gaps`
and `recommend_actions`; they are embedded here verbatim from that file.
-/

namespace XplainIQLiteFinal

/-- The five pillars of `XplainIQLite_Final.py`. -/
def PILLARS : List (String × List String) := [
  ("A. Channel Strategy & Alignment", ["A1", "A2"]),
  ("B. Partner Program Design",      ["B1", "B2"]),
  ("C. Partner Enablement & Engagement", ["C1", "C2"]),
  ("D. Sales & Operations Integration",  ["D1", "D2"]),
  ("E. Growth Readiness",            ["E1", "E2"])]

/-- The tier bands of `XplainIQLite_Final.py`. -/
def TIER_BANDS : List (String × Int × Int) := [
  ("Emerging",   0, 39),
  ("Developing", 40, 59),
  ("Established",60, 79),
  ("Optimized",  80, 100)]

/-- `tier_for` of `XplainIQLite_Final.py`. -/
def tier_for (score : ℚ) : String :=
  let s := XplainIQLite.pyRound score
  match TIER_BANDS.find? (fun b => decide (b.2.1 ≤ s) && decide (s ≤ b.2.2)) with
  | some b => b.1
  | none => "Unknown"

/-- `pillar_commentary` of `XplainIQLite_Final.py`. -/
def pillar_commentary (pillar_name : String) (pscore : ℚ) : String :=
  if pscore ≥ 80 then
    pillar_name ++ " is strong and scalable – keep reinforcing what works."
  else if pscore ≥ 60 then
    pillar_name ++ " shows a solid foundation with room to standardize and scale."
  else if pscore ≥ 40 then
    pillar_name ++ " is emerging – formalize structure, cadence, and measurement."
  else
    pillar_name ++ " is underdeveloped – prioritize core mechanics and minimum viable structure."

/-- `compute_scores` of `XplainIQLite_Final.py`. -/
def compute_scores (answers : XplainIQLite.Answers) :
    List (String × ℚ × List (String × Int)) × ℚ :=
  let pillar_scores := PILLARS.map (fun p =>
    let vals := p.2.map (fun q => XplainIQLite.getAnswer answers q)
    (p.1, XplainIQLite.pillarScore vals, p.2.zip vals))
  let overall := (pillar_scores.map (fun p => p.2.1)).sum / (pillar_scores.length : ℚ)
  (pillar_scores, overall)

/-- `derive_strengths_gaps` of `XplainIQLite_Final.py`. -/
def derive_strengths_gaps (ps : List (String × ℚ × List (String × Int))) :
    List String × List String :=
  let sorted_p := ps.mergeSort (fun a b => decide (b.2.1 ≤ a.2.1))
  ((sorted_p.take 2).map (fun p => p.1),
   (sorted_p.drop (sorted_p.length - 3)).map (fun p => p.1))

/-- The playbook of `XplainIQLite_Final.py`. -/
def playbook : List (String × String) := [
  ("A. Channel Strategy & Alignment", "Clarify the partner role by segment and set a 12-month channel thesis with 3 measurable outcomes."),
  ("B. Partner Program Design", "Publish a simple one-pager: tiers, incentives, rules of engagement, and co-marketing paths."),
  ("C. Partner Enablement & Engagement", "Stand up a 30-60-90 enablement cadence: onboarding kit, monthly enablement call, quarterly MDF campaign."),
  ("D. Sales & Operations Integration", "Separate channel pipeline tracking; define lead routing/quoting SLAs; add 'channel' to forecast reviews."),
  ("E. Growth Readiness", "Baseline partner P&L and capacity; set tooling minimums (PRM/CRM views) and resource triggers for 2–3× growth.")]

/-- `recommend_actions` of `XplainIQLite_Final.py`. -/
def recommend_actions (ps : List (String × ℚ × List (String × Int))) : List String :=
  let lows := (ps.mergeSort (fun a b => decide (a.2.1 ≤ b.2.1))).take 3
  lows.map (fun p => (playbook.lookup p.1).getD
    ("Prioritize foundational improvements in " ++ p.1.toLower ++ " to enable scale."))

end XplainIQLiteFinal

/-- C10. The scoring cores of `XplainIQLite.py` and `XplainIQLite_Final.py`
are extensionally equal: identical `PILLARS` and `TIER_BANDS` catalogs and
playbook, and the same functions `compute_scores`, `tier_for`,
`derive_strengths_gaps`, `recommend_actions` and `pillar_commentary`. -/
theorem final_scoring_core_equal :
    XplainIQLiteFinal.PILLARS = XplainIQLite.PILLARS ∧
    XplainIQLiteFinal.TIER_BANDS = XplainIQLite.TIER_BANDS ∧
    XplainIQLiteFinal.playbook = XplainIQLite.playbook ∧
    XplainIQLiteFinal.tier_for = XplainIQLite.tier_for ∧
    XplainIQLiteFinal.pillar_commentary = XplainIQLite.pillar_commentary ∧
    XplainIQLiteFinal.compute_scores = XplainIQLite.compute_scores ∧
    XplainIQLiteFinal.derive_strengths_gaps = XplainIQLite.derive_strengths_gaps ∧
    XplainIQLiteFinal.recommend_actions = XplainIQLite.recommend_actions :=
  ⟨rfl, rfl, rfl, rfl, rfl, rfl, rfl, rfl⟩
